import Mathlib

/-!
Shallow embedding of the decision-logic core of `src/weather_app.py`:
unit formatting, clothing advisory, AQI/UV classifiers, alert evaluation,
daily forecast aggregation, and the moon-phase approximation.
Numeric values are modelled as exact rationals.
-/

/-- `src/weather_app.py` line 187: `temp_unit = "°C" if units == "metric" else "°F"`. -/
def temp_unit (units : String) : String :=
  if units = "metric" then "°C" else "°F"

/-- `src/weather_app.py` line 188: `speed_unit = "m/s" if units == "metric" else "mph"`. -/
def speed_unit (units : String) : String :=
  if units = "metric" then "m/s" else "mph"

/-- The Unit Formatter: the pair of display units chosen by `render_current_weather`. -/
def unitFormatter (units : String) : String × String :=
  (temp_unit units, speed_unit units)

/-- `get_clothing_suggestion` (lines 29-41): if/elif chain on the temperature.
The `condition` parameter is accepted and unused, exactly as in the source. -/
def get_clothing_suggestion (temp_c : ℚ) (condition : String) : String :=
  if temp_c < 0 then "🧥 Heavy winter coat, gloves, scarf, and warm boots"
  else if temp_c < 10 then "🧥 Warm jacket, long sleeves, and closed shoes"
  else if temp_c < 15 then "👕 Light jacket or sweater recommended"
  else if temp_c < 20 then "👕 Long sleeves or light layers"
  else if temp_c < 25 then "👕 Comfortable casual wear"
  else "👕 Light, breathable clothing. Stay hydrated!"

/-- `get_aqi_info` (lines 44-56): bands with inclusive upper bounds. -/
def get_aqi_info (aqi : ℚ) : String × String :=
  if aqi ≤ 50 then ("Good", "#00e400")
  else if aqi ≤ 100 then ("Moderate", "#ffff00")
  else if aqi ≤ 150 then ("Unhealthy for Sensitive Groups", "#ff7e00")
  else if aqi ≤ 200 then ("Unhealthy", "#ff0000")
  else if aqi ≤ 300 then ("Very Unhealthy", "#8f3f97")
  else ("Hazardous", "#7e0023")

/-- `get_uv_info` (lines 59-69): bands with exclusive upper bounds. -/
def get_uv_info (uvi : ℚ) : String × String :=
  if uvi < 3 then ("Low", "#3ea72d")
  else if uvi < 6 then ("Moderate", "#fff300")
  else if uvi < 8 then ("High", "#f18b00")
  else if uvi < 11 then ("Very High", "#e53210")
  else ("Extreme", "#b567a4")

/-- `render_advanced_features` line 368: `aqi_value = aqi * 50`, the provider's 1-5
air-quality index rescaled to the US scale. -/
def usAqiValue (aqi : ℤ) : ℤ := aqi * 50

/-- Modelled from the spec: the Fahrenheit→Celsius conversion that §4.2 requires
before classification under the imperial system.  No such conversion exists in
`src/weather_app.py`; this definition expresses the specified behaviour so the
call site can be compared against it. -/
def fahrenheit_to_celsius (t : ℚ) : ℚ := (t - 32) * 5 / 9

/-- `render_current_weather` line 236: the value passed to `get_clothing_suggestion`
is `temp` exactly as fetched (in the caller's selected units); the `units` argument
of the surrounding function does not influence the call. -/
def clothingAtCallSite (units : String) (temp : ℚ) (condition : String) : String :=
  get_clothing_suggestion temp condition

/-- `render_alerts` (lines 429-453): the four checks are independent `if`s run in a
fixed order, each appending at most one `(message, severity)` pair. -/
def render_alerts (temp wind_speed : ℚ) (condition : String) : List (String × String) :=
  let a0 : List (String × String) := []
  let a1 := if temp < 0 then a0 ++ [("⚠️ Freezing Temperature", "warning")] else a0
  let a2 := if temp > 35 then a1 ++ [("🔥 Extreme Heat Warning", "error")] else a1
  let a3 := if wind_speed > 10 then a2 ++ [("💨 High Wind Advisory", "warning")] else a2
  if condition = "Thunderstorm" ∨ condition = "Snow" then
    a3 ++ [("⛈️ " ++ condition ++ " Alert", "error")]
  else a3

/-- A forecast sample as consumed by `render_daily_forecast`: the `date_key` field
models `datetime.fromtimestamp(item['dt']).strftime('%Y-%m-%d')`, the local calendar
date of the sample's timestamp rendered as an ISO `YYYY-MM-DD` string. -/
structure Sample where
  date_key : String
  temp : ℚ
  cond : String
  pop : ℚ
  wind : ℚ
deriving DecidableEq, Repr

/-- One step of the grouping loop (lines 312-330): append the sample to the bucket
for its date key, creating the bucket at the end on first sight of the key —
exactly the insertion-ordered dict semantics of Python. -/
def insertSample (acc : List (String × List Sample)) (s : Sample) :
    List (String × List Sample) :=
  match acc with
  | [] => [(s.date_key, [s])]
  | (k, xs) :: rest =>
      if k = s.date_key then (k, xs ++ [s]) :: rest
      else (k, xs) :: insertSample rest s

/-- The `daily_data` dict of `render_daily_forecast` after the grouping loop:
an association list from date key to that day's samples in input order. -/
def groupByDay (samples : List Sample) : List (String × List Sample) :=
  samples.foldl insertSample []

/-- Association-list lookup, the model of `daily_data[date_key]`. -/
def lookupDay (k : String) : List (String × List Sample) → Option (List Sample)
  | [] => none
  | (k2, xs) :: rest => if k2 = k then some xs else lookupDay k rest

/-- The per-day statistics displayed by `render_daily_forecast` (lines 333-351):
`max(temps)`, `min(temps)`, `max(rain_prob)`, `sum(wind)/len(wind)`.  Python's
`max`/`min` fault on an empty list; the empty case is `none`. -/
structure DailyAggregate where
  date_key : String
  high : ℚ
  low : ℚ
  rain : ℚ
  wind : ℚ
deriving DecidableEq, Repr

def bucketStats (k : String) (xs : List Sample) : Option DailyAggregate :=
  match xs with
  | [] => none
  | s :: rest =>
      some { date_key := k
             high := (rest.map Sample.temp).foldl max s.temp
             low := (rest.map Sample.temp).foldl min s.temp
             rain := (rest.map Sample.pop).foldl max s.pop
             wind := ((s :: rest).map Sample.wind).sum / (((s :: rest).length : ℚ)) }

/-- The Forecast Aggregator: group by date key, iterate
`sorted(daily_data.keys())[:7]`, and compute each day's statistics. -/
def aggregateDaily (samples : List Sample) : List DailyAggregate :=
  let daily := groupByDay samples
  (((daily.map Prod.fst).insertionSort (fun a b => a ≤ b)).take 7).filterMap
    (fun k => (lookupDay k daily).bind (bucketStats k))

/-- `list.count` of Python: occurrences of `c` in `l`. -/
def pyCount (l : List String) (c : String) : ℕ :=
  (l.filter (fun x => x = c)).length

/-- One comparison step of Python's `max(..., key=...)`: the current best is
replaced only when the next element's key is strictly greater. -/
def argmaxStep (key : String → ℕ) (best y : String) : String :=
  if key best < key y then y else best

/-- Python's `max(iterable, key=key)`: fold keeping the current best, so the
earliest maximal element of the iteration order wins. -/
def maxByKey (key : String → ℕ) : List String → Option String
  | [] => none
  | x :: xs => some (xs.foldl (argmaxStep key) x)

/-- Line 341: `condition = max(set(day['conditions']), key=day['conditions'].count)`.
Python iterates the set in an order the language does not fix; `setOrder` stands
for that enumeration of the distinct condition codes. -/
def dominantCondition (setOrder : List String) (conds : List String) : Option String :=
  maxByKey (pyCount conds) setOrder

/-- Modelled from the spec: the dominant condition §4.6 describes — the mode with
ties broken by order of FIRST APPEARANCE in the bucket.  The source has no such
tie-break; this definition exists to be compared with `dominantCondition`. -/
def dominantFirstAppearance (conds : List String) : Option String :=
  maxByKey (pyCount conds)
    (conds.foldl (fun acc x => if x ∈ acc then acc else acc ++ [x]) [])

/-- The synodic period constant `29.53` of lines 424-426, as an exact rational. -/
def synodic : ℚ := 2953 / 100

/-- Line 424 before the modulus:
`(now.year - 2000) * 12.3685 + now.month + now.day / 30.0`. -/
def moonAgeRaw (year month day : ℤ) : ℚ :=
  (year - 2000) * (123685 / 10000) + month + (day : ℚ) / 30

/-- Line 424: `moon_age = (...) % 29.53`.  Python's float `%` returns a value with
the sign of the divisor, i.e. `a - 29.53 * floor(a / 29.53)`, in `[0, 29.53)`. -/
def moonAge (year month day : ℤ) : ℚ :=
  moonAgeRaw year month day - synodic * ⌊moonAgeRaw year month day / synodic⌋

/-- Line 426: `phase_idx = int(moon_age / 29.53 * 8) % 8`.  `int()` truncates
toward zero, which on the non-negative `moon_age` is the floor. -/
def phase_idx (year month day : ℤ) : ℤ :=
  (⌊moonAge year month day / synodic * 8⌋) % 8

/-- Gregorian leap-year rule, for advancing a calendar date by whole days. -/
def isLeap (y : ℤ) : Bool :=
  y % 4 == 0 && (y % 100 != 0 || y % 400 == 0)

def daysInMonth (y m : ℤ) : ℤ :=
  if m = 2 then (if isLeap y then 29 else 28)
  else if m = 4 ∨ m = 6 ∨ m = 9 ∨ m = 11 then 30
  else 31

def validDate (y m d : ℤ) : Prop :=
  1 ≤ m ∧ m ≤ 12 ∧ 1 ≤ d ∧ d ≤ daysInMonth y m

instance (y m d : ℤ) : Decidable (validDate y m d) := by
  unfold validDate; infer_instance

def nextMonth (y m : ℤ) : ℤ × ℤ :=
  if m = 12 then (y + 1, 1) else (y, m + 1)

/-- Advance a calendar date by 30 days, the whole-day realisation of one synodic
period (29.53 days rounds to 30).  On a valid date at most two month boundaries
can be crossed. -/
def addDays30 (y m d : ℤ) : ℤ × ℤ × ℤ :=
  if d + 30 ≤ daysInMonth y m then (y, m, d + 30)
  else
    let p2 := nextMonth y m
    let d2 := d + 30 - daysInMonth y m
    if d2 ≤ daysInMonth p2.1 p2.2 then (p2.1, p2.2, d2)
    else
      let p3 := nextMonth p2.1 p2.2
      (p3.1, p3.2, d2 - daysInMonth p2.1 p2.2)

/-- Specification helper for the grouping proofs: the bucket obtained by
appending `ys` to an optional existing bucket, `none` meaning "no bucket yet". -/
def extendBucket : Option (List Sample) → List Sample → Option (List Sample)
  | some xs, ys => some (xs ++ ys)
  | none, [] => none
  | none, y :: ys => some (y :: ys)

/-- C2 (counterexample): the selector `"bogus"` is neither `"metric"` nor
`"imperial"`, yet the Unit Formatter yields the imperial units `(°F, mph)`,
not the metric `(°C, m/s)` the claim asserts as the fallback. -/
theorem unitFormatter_invalid_falls_to_imperial :
    ("bogus" : String) ≠ "metric" ∧ ("bogus" : String) ≠ "imperial" ∧
    unitFormatter "bogus" = ("°F", "mph") ∧
    unitFormatter "bogus" ≠ ("°C", "m/s") := by
  refine ⟨by decide, by decide, by decide, by decide⟩

/-- C2 (amended): the Unit Formatter maps `"metric"` to `(°C, m/s)` and every
other selector — `"imperial"` and every invalid selector alike — to the
imperial units `(°F, mph)`; the fallback is imperial, not metric. -/
theorem unitFormatter_bands (u : String) :
    (u = "metric" → unitFormatter u = ("°C", "m/s")) ∧
    (u ≠ "metric" → unitFormatter u = ("°F", "mph")) := by
  constructor <;> intro h <;>
    simp [unitFormatter, temp_unit, speed_unit, h]

/-- C2 witness: instantiating `unitFormatter_bands` at the concrete invalid
selector `"kelvin"`. -/
theorem unitFormatter_bands_witness :
    ("kelvin" : String) ≠ "metric" ∧ unitFormatter "kelvin" = ("°F", "mph") :=
  ⟨by decide, (unitFormatter_bands "kelvin").2 (by decide)⟩

/-- C3 (code bug): under the imperial system `render_current_weather` hands the
raw Fahrenheit reading to `get_clothing_suggestion` without converting it.  At
50 °F (= 10 °C) the call site returns the hot-weather tier, while classifying
the converted Celsius value as the spec demands returns the light-jacket tier. -/
theorem clothing_call_skips_conversion :
    clothingAtCallSite "imperial" 50 "Clear" =
      "👕 Light, breathable clothing. Stay hydrated!" ∧
    fahrenheit_to_celsius 50 = 10 ∧
    get_clothing_suggestion (fahrenheit_to_celsius 50) "Clear" =
      "👕 Light jacket or sweater recommended" ∧
    clothingAtCallSite "imperial" 50 "Clear" ≠
      get_clothing_suggestion (fahrenheit_to_celsius 50) "Clear" := by
  have h10 : fahrenheit_to_celsius 50 = 10 := by
    norm_num [fahrenheit_to_celsius]
  refine ⟨by norm_num [clothingAtCallSite, get_clothing_suggestion], h10, ?_, ?_⟩
  · rw [h10]; norm_num [get_clothing_suggestion]
  · rw [h10]
    norm_num [clothingAtCallSite, get_clothing_suggestion]
    decide

/-- C8: the clothing classifier is total over the six fixed tiers; each half-open
band maps to its tier, so every boundary value 0, 10, 15, 20, 25 lands in the
upper adjacent tier; the six tier strings are pairwise distinct, so exactly one
tier is returned. -/
theorem clothing_bands (t : ℚ) (c : String) :
    get_clothing_suggestion t c ∈
      ["🧥 Heavy winter coat, gloves, scarf, and warm boots",
       "🧥 Warm jacket, long sleeves, and closed shoes",
       "👕 Light jacket or sweater recommended",
       "👕 Long sleeves or light layers",
       "👕 Comfortable casual wear",
       "👕 Light, breathable clothing. Stay hydrated!"] ∧
    (t < 0 → get_clothing_suggestion t c =
      "🧥 Heavy winter coat, gloves, scarf, and warm boots") ∧
    (0 ≤ t ∧ t < 10 → get_clothing_suggestion t c =
      "🧥 Warm jacket, long sleeves, and closed shoes") ∧
    (10 ≤ t ∧ t < 15 → get_clothing_suggestion t c =
      "👕 Light jacket or sweater recommended") ∧
    (15 ≤ t ∧ t < 20 → get_clothing_suggestion t c =
      "👕 Long sleeves or light layers") ∧
    (20 ≤ t ∧ t < 25 → get_clothing_suggestion t c =
      "👕 Comfortable casual wear") ∧
    (25 ≤ t → get_clothing_suggestion t c =
      "👕 Light, breathable clothing. Stay hydrated!") ∧
    List.Nodup
      ["🧥 Heavy winter coat, gloves, scarf, and warm boots",
       "🧥 Warm jacket, long sleeves, and closed shoes",
       "👕 Light jacket or sweater recommended",
       "👕 Long sleeves or light layers",
       "👕 Comfortable casual wear",
       "👕 Light, breathable clothing. Stay hydrated!"] := by
  unfold get_clothing_suggestion
  split_ifs with h1 h2 h3 h4 h5 <;>
    refine ⟨by simp, fun h => ?_, fun h => ?_, fun h => ?_, fun h => ?_,
      fun h => ?_, fun h => ?_, by decide⟩ <;>
    first
      | rfl
      | (exfalso; obtain ⟨h6, h7⟩ := h; linarith)
      | (exfalso; linarith)

/-- C8 witness: the boundary value 15 lands in the long-sleeves tier, via
`clothing_bands` at `t = 15`. -/
theorem clothing_bands_witness :
    ((15 : ℚ) ≤ 15 ∧ (15 : ℚ) < 20) ∧
    get_clothing_suggestion 15 "Clear" = "👕 Long sleeves or light layers" :=
  ⟨⟨by norm_num, by norm_num⟩,
    (clothing_bands 15 "Clear").2.2.2.2.1 ⟨by norm_num, by norm_num⟩⟩

lemma aqi_band_cases (a : ℚ) :
    (a ≤ 50 → get_aqi_info a = ("Good", "#00e400")) ∧
    (50 < a ∧ a ≤ 100 → get_aqi_info a = ("Moderate", "#ffff00")) ∧
    (100 < a ∧ a ≤ 150 →
      get_aqi_info a = ("Unhealthy for Sensitive Groups", "#ff7e00")) ∧
    (150 < a ∧ a ≤ 200 → get_aqi_info a = ("Unhealthy", "#ff0000")) ∧
    (200 < a ∧ a ≤ 300 → get_aqi_info a = ("Very Unhealthy", "#8f3f97")) ∧
    (300 < a → get_aqi_info a = ("Hazardous", "#7e0023")) := by
  unfold get_aqi_info
  split_ifs with h1 h2 h3 h4 h5 <;>
    refine ⟨fun h => ?_, fun h => ?_, fun h => ?_, fun h => ?_,
      fun h => ?_, fun h => ?_⟩ <;>
    first
      | rfl
      | (exfalso; obtain ⟨h6, h7⟩ := h; linarith)
      | (exfalso; linarith)

lemma aqi_band_mem (a : ℚ) :
    get_aqi_info a ∈
      [("Good", "#00e400"), ("Moderate", "#ffff00"),
       ("Unhealthy for Sensitive Groups", "#ff7e00"), ("Unhealthy", "#ff0000"),
       ("Very Unhealthy", "#8f3f97"), ("Hazardous", "#7e0023")] := by
  unfold get_aqi_info
  split_ifs <;> simp

lemma uv_band_cases (u : ℚ) :
    (u < 3 → get_uv_info u = ("Low", "#3ea72d")) ∧
    (3 ≤ u ∧ u < 6 → get_uv_info u = ("Moderate", "#fff300")) ∧
    (6 ≤ u ∧ u < 8 → get_uv_info u = ("High", "#f18b00")) ∧
    (8 ≤ u ∧ u < 11 → get_uv_info u = ("Very High", "#e53210")) ∧
    (11 ≤ u → get_uv_info u = ("Extreme", "#b567a4")) := by
  unfold get_uv_info
  split_ifs with h1 h2 h3 h4 <;>
    refine ⟨fun h => ?_, fun h => ?_, fun h => ?_, fun h => ?_, fun h => ?_⟩ <;>
    first
      | rfl
      | (exfalso; obtain ⟨h6, h7⟩ := h; linarith)
      | (exfalso; linarith)

lemma uv_band_mem (u : ℚ) :
    get_uv_info u ∈
      [("Low", "#3ea72d"), ("Moderate", "#fff300"), ("High", "#f18b00"),
       ("Very High", "#e53210"), ("Extreme", "#b567a4")] := by
  unfold get_uv_info
  split_ifs <;> simp

/-- C9: each classifier returns exactly one `(label, color)` pair from its fixed
ordered band set, the bands covering the whole domain with no overlap and no
gap: the AQI bands are inclusive at 50, 100, 150, 200, 300 with the last band
open-ended, and the UV bands are exclusive at 3, 6, 8, 11 with Extreme at ≥ 11.
The band case-split is exhaustive and the pairs are pairwise distinct, so the
returned pair is unique. -/
theorem aqi_uv_band_partition (a u : ℚ) :
    (get_aqi_info a ∈
      [("Good", "#00e400"), ("Moderate", "#ffff00"),
       ("Unhealthy for Sensitive Groups", "#ff7e00"), ("Unhealthy", "#ff0000"),
       ("Very Unhealthy", "#8f3f97"), ("Hazardous", "#7e0023")]) ∧
    (a ≤ 50 → get_aqi_info a = ("Good", "#00e400")) ∧
    (50 < a ∧ a ≤ 100 → get_aqi_info a = ("Moderate", "#ffff00")) ∧
    (100 < a ∧ a ≤ 150 →
      get_aqi_info a = ("Unhealthy for Sensitive Groups", "#ff7e00")) ∧
    (150 < a ∧ a ≤ 200 → get_aqi_info a = ("Unhealthy", "#ff0000")) ∧
    (200 < a ∧ a ≤ 300 → get_aqi_info a = ("Very Unhealthy", "#8f3f97")) ∧
    (300 < a → get_aqi_info a = ("Hazardous", "#7e0023")) ∧
    (get_uv_info u ∈
      [("Low", "#3ea72d"), ("Moderate", "#fff300"), ("High", "#f18b00"),
       ("Very High", "#e53210"), ("Extreme", "#b567a4")]) ∧
    (u < 3 → get_uv_info u = ("Low", "#3ea72d")) ∧
    (3 ≤ u ∧ u < 6 → get_uv_info u = ("Moderate", "#fff300")) ∧
    (6 ≤ u ∧ u < 8 → get_uv_info u = ("High", "#f18b00")) ∧
    (8 ≤ u ∧ u < 11 → get_uv_info u = ("Very High", "#e53210")) ∧
    (11 ≤ u → get_uv_info u = ("Extreme", "#b567a4")) ∧
    List.Nodup
      [("Good", "#00e400"), ("Moderate", "#ffff00"),
       ("Unhealthy for Sensitive Groups", "#ff7e00"), ("Unhealthy", "#ff0000"),
       ("Very Unhealthy", "#8f3f97"), ("Hazardous", "#7e0023")] ∧
    List.Nodup
      [("Low", "#3ea72d"), ("Moderate", "#fff300"), ("High", "#f18b00"),
       ("Very High", "#e53210"), ("Extreme", "#b567a4")] := by
  obtain ⟨a1, a2, a3, a4, a5, a6⟩ := aqi_band_cases a
  obtain ⟨u1, u2, u3, u4, u5⟩ := uv_band_cases u
  exact ⟨aqi_band_mem a, a1, a2, a3, a4, a5, a6, uv_band_mem u,
    u1, u2, u3, u4, u5, by decide, by decide⟩

/-- C9 witness: `aqi_uv_band_partition` at AQI 150 (inclusive upper end of the
sensitive-groups band) and UV 8 (start of the Very High band). -/
theorem aqi_uv_band_partition_witness :
    (((100 : ℚ) < 150 ∧ (150 : ℚ) ≤ 150) ∧
      get_aqi_info 150 = ("Unhealthy for Sensitive Groups", "#ff7e00")) ∧
    (((8 : ℚ) ≤ 8 ∧ (8 : ℚ) < 11) ∧
      get_uv_info 8 = ("Very High", "#e53210")) :=
  ⟨⟨⟨by norm_num, by norm_num⟩,
      (aqi_uv_band_partition 150 8).2.2.2.1 ⟨by norm_num, by norm_num⟩⟩,
    ⟨⟨by norm_num, by norm_num⟩,
      (aqi_uv_band_partition 150 8).2.2.2.2.2.2.2.2.2.2.2.1
        ⟨by norm_num, by norm_num⟩⟩⟩

/-- C10: the provider's AQI field takes values 1-5; line 368 displays
`aqi * 50 ∈ {50, 100, 150, 200, 250}`, so the classified band is one of the
first five and the Hazardous band (> 300) is unreachable from provider data. -/
theorem provider_aqi_never_hazardous (aqi : ℤ) (h1 : 1 ≤ aqi) (h2 : aqi ≤ 5) :
    usAqiValue aqi ∈ ([50, 100, 150, 200, 250] : List ℤ) ∧
    (get_aqi_info ((usAqiValue aqi : ℤ) : ℚ)).1 ∈
      ["Good", "Moderate", "Unhealthy for Sensitive Groups", "Unhealthy",
       "Very Unhealthy"] ∧
    (get_aqi_info ((usAqiValue aqi : ℤ) : ℚ)).1 ≠ "Hazardous" := by
  interval_cases aqi <;>
    refine ⟨by decide, ?_, ?_⟩ <;>
    (norm_num [usAqiValue, get_aqi_info]) <;>
    decide

/-- C10 witness: `provider_aqi_never_hazardous` at the provider value 5, the
largest one, which maps to 250 and the Very Unhealthy band. -/
theorem provider_aqi_never_hazardous_witness :
    ((1 : ℤ) ≤ 5 ∧ (5 : ℤ) ≤ 5) ∧
    (get_aqi_info ((usAqiValue 5 : ℤ) : ℚ)).1 ≠ "Hazardous" :=
  ⟨⟨by decide, by decide⟩,
    (provider_aqi_never_hazardous 5 (by decide) (by decide)).2.2⟩

/-- C5: the Alert Evaluator runs its four checks independently in a fixed order —
the result is the concatenation of the four independent checks — and on the
snapshot (temp -5, wind 12, condition Snow) it yields exactly the three alerts
(freezing, high-wind, snow) in that order with no heat alert; being a pure
function of the snapshot, it returns the identical sequence on every call. -/
theorem alerts_fixed_order (t w : ℚ) (c : String) :
    render_alerts t w c =
      (if t < 0 then [(("⚠️ Freezing Temperature", "warning") : String × String)]
        else []) ++
      (if t > 35 then [("🔥 Extreme Heat Warning", "error")] else []) ++
      (if w > 10 then [("💨 High Wind Advisory", "warning")] else []) ++
      (if c = "Thunderstorm" ∨ c = "Snow" then [("⛈️ " ++ c ++ " Alert", "error")]
        else []) ∧
    render_alerts t w c = render_alerts t w c ∧
    render_alerts (-5) 12 "Snow" =
      [("⚠️ Freezing Temperature", "warning"), ("💨 High Wind Advisory", "warning"),
       ("⛈️ Snow Alert", "error")] ∧
    ("🔥 Extreme Heat Warning", "error") ∉ render_alerts (-5) 12 "Snow" := by
  refine ⟨?_, rfl, ?_, ?_⟩
  · unfold render_alerts
    split_ifs <;> simp
  · norm_num [render_alerts]
    decide
  · norm_num [render_alerts]
    decide

lemma foldl_argmax_mem (key : String → ℕ) (xs : List String) (x : String) :
    xs.foldl (argmaxStep key) x = x ∨ xs.foldl (argmaxStep key) x ∈ xs := by
  induction xs generalizing x with
  | nil => left; rfl
  | cons y ys ih =>
      simp only [List.foldl_cons, argmaxStep]
      by_cases h : key x < key y
      · simp only [if_pos h]
        rcases ih y with h2 | h2
        · right; simp [h2]
        · right; simp [h2]
      · simp only [if_neg h]
        rcases ih x with h2 | h2
        · left; exact h2
        · right; simp [h2]

lemma le_foldl_argmax (key : String → ℕ) (xs : List String) (x : String) :
    key x ≤ key (xs.foldl (argmaxStep key) x) ∧
    ∀ c ∈ xs, key c ≤ key (xs.foldl (argmaxStep key) x) := by
  induction xs generalizing x with
  | nil => exact ⟨le_refl _, by simp⟩
  | cons y ys ih =>
      simp only [List.foldl_cons]
      have hx : key x ≤ key (argmaxStep key x y) := by
        unfold argmaxStep; split_ifs with h
        · exact le_of_lt h
        · exact le_refl _
      have hy : key y ≤ key (argmaxStep key x y) := by
        unfold argmaxStep; split_ifs with h
        · exact le_refl _
        · exact le_of_not_lt h
      obtain ⟨ih1, ih2⟩ := ih (argmaxStep key x y)
      refine ⟨le_trans hx ih1, ?_⟩
      intro c hc
      rcases List.mem_cons.mp hc with hc | hc
      · subst hc; exact le_trans hy ih1
      · exact ih2 c hc

/-- C1 (counterexample): in the bucket [Clear, Rain, Rain, Clear] the codes Clear
and Rain tie at two occurrences each; the first-encountered tied code is Clear,
but under the set enumeration [Rain, Clear] — a legitimate iteration order of
the Python set {Clear, Rain} — line 341's `max(set(...), key=....count)` returns
Rain, so the tie is not broken by order of first appearance. -/
theorem dominant_tie_not_first_appearance :
    (∀ c ∈ (["Rain", "Clear"] : List String),
      c ∈ (["Clear", "Rain", "Rain", "Clear"] : List String)) ∧
    (∀ c ∈ (["Clear", "Rain", "Rain", "Clear"] : List String),
      c ∈ (["Rain", "Clear"] : List String)) ∧
    (["Rain", "Clear"] : List String).Nodup ∧
    pyCount ["Clear", "Rain", "Rain", "Clear"] "Clear" =
      pyCount ["Clear", "Rain", "Rain", "Clear"] "Rain" ∧
    dominantFirstAppearance ["Clear", "Rain", "Rain", "Clear"] = some "Clear" ∧
    dominantCondition ["Rain", "Clear"] ["Clear", "Rain", "Rain", "Clear"] =
      some "Rain" ∧
    some ("Rain" : String) ≠ some "Clear" := by
  refine ⟨by decide, by decide, by decide, by decide, by decide, by decide,
    by decide⟩

/-- C1 (amended): for every enumeration of the bucket's distinct condition codes
(the iteration order of the Python set, which the language does not fix), the
dominant condition is a condition code of maximal frequency in the bucket; when
several codes tie for the maximum the winner is the first tied code in that set
enumeration, which need not be the first-encountered code of the bucket. -/
theorem dominant_is_mode (setOrder conds : List String)
    (h1 : ∀ c ∈ conds, c ∈ setOrder) (h2 : ∀ c ∈ setOrder, c ∈ conds)
    (h3 : setOrder ≠ []) :
    ∃ r, dominantCondition setOrder conds = some r ∧ r ∈ conds ∧
      ∀ c ∈ conds, pyCount conds c ≤ pyCount conds r := by
  match setOrder, h3 with
  | x :: xs, _ =>
    refine ⟨xs.foldl (argmaxStep (pyCount conds)) x, rfl, ?_, ?_⟩
    · rcases foldl_argmax_mem (pyCount conds) xs x with h | h
      · rw [h]; exact h2 _ (List.mem_cons_self x xs)
      · exact h2 _ (List.mem_cons_of_mem x h)
    · intro c hc
      obtain ⟨hx, hxs⟩ := le_foldl_argmax (pyCount conds) xs x
      rcases List.mem_cons.mp (h1 c hc) with h | h
      · subst h; exact hx
      · exact hxs c h

/-- C1 witness: `dominant_is_mode` on the bucket [Clear, Rain, Rain] under the
set enumeration [Rain, Clear]. -/
theorem dominant_is_mode_witness :
    ((∀ c ∈ (["Clear", "Rain", "Rain"] : List String),
        c ∈ (["Rain", "Clear"] : List String)) ∧
      (∀ c ∈ (["Rain", "Clear"] : List String),
        c ∈ (["Clear", "Rain", "Rain"] : List String)) ∧
      (["Rain", "Clear"] : List String) ≠ []) ∧
    (∃ r, dominantCondition ["Rain", "Clear"] ["Clear", "Rain", "Rain"] = some r ∧
      r ∈ (["Clear", "Rain", "Rain"] : List String) ∧
      ∀ c ∈ (["Clear", "Rain", "Rain"] : List String),
        pyCount ["Clear", "Rain", "Rain"] c ≤
          pyCount ["Clear", "Rain", "Rain"] r) :=
  ⟨⟨by decide, by decide, by decide⟩,
    dominant_is_mode ["Rain", "Clear"] ["Clear", "Rain", "Rain"]
      (by decide) (by decide) (by decide)⟩

lemma extendBucket_nil (o : Option (List Sample)) : extendBucket o [] = o := by
  cases o <;> simp [extendBucket]

lemma extendBucket_cons (o : Option (List Sample)) (s : Sample) (ys : List Sample) :
    extendBucket (extendBucket o [s]) ys = extendBucket o (s :: ys) := by
  cases o <;> cases ys <;> simp [extendBucket]

lemma lookup_insertSample (acc : List (String × List Sample)) (s : Sample)
    (k : String) :
    lookupDay k (insertSample acc s) =
      if s.date_key = k then extendBucket (lookupDay k acc) [s]
      else lookupDay k acc := by
  induction acc with
  | nil =>
      by_cases h : s.date_key = k <;>
        simp [insertSample, lookupDay, extendBucket, h]
  | cons p rest ih =>
      obtain ⟨k2, xs⟩ := p
      simp only [insertSample]
      by_cases h1 : k2 = s.date_key
      · simp only [if_pos h1]
        by_cases h2 : k2 = k
        · have hs : s.date_key = k := h1.symm.trans h2
          simp [lookupDay, h2, hs, extendBucket]
        · have hs : ¬ s.date_key = k := fun h => h2 (h1.trans h)
          simp [lookupDay, h2, hs]
      · simp only [if_neg h1]
        by_cases h2 : k2 = k
        · have hs : ¬ s.date_key = k := fun h => h1 (h2.trans h.symm)
          simp [lookupDay, h2, hs]
        · simp [lookupDay, h2, ih]

lemma lookup_groupFold (samples : List Sample)
    (acc : List (String × List Sample)) (k : String) :
    lookupDay k (samples.foldl insertSample acc) =
      extendBucket (lookupDay k acc)
        (samples.filter (fun s => s.date_key = k)) := by
  induction samples generalizing acc with
  | nil => simp [extendBucket_nil]
  | cons s rest ih =>
      simp only [List.foldl_cons, List.filter_cons]
      rw [ih, lookup_insertSample]
      by_cases h : s.date_key = k
      · simp [h, extendBucket_cons]
      · simp [h]

lemma lookup_groupByDay (samples : List Sample) (k : String) :
    lookupDay k (groupByDay samples) =
      extendBucket none (samples.filter (fun s => s.date_key = k)) := by
  unfold groupByDay
  rw [lookup_groupFold]
  rfl

lemma lookupDay_eq_none (k : String) (l : List (String × List Sample)) :
    lookupDay k l = none ↔ k ∉ l.map Prod.fst := by
  induction l with
  | nil => simp [lookupDay]
  | cons p rest ih =>
      obtain ⟨k2, xs⟩ := p
      constructor
      · intro hnone hmem
        by_cases h : k2 = k
        · simp only [lookupDay, if_pos h] at hnone
          exact Option.noConfusion hnone
        · simp only [lookupDay, if_neg h] at hnone
          rw [List.map_cons, List.mem_cons] at hmem
          rcases hmem with hm | hm
          · exact h hm.symm
          · exact (ih.mp hnone) hm
      · intro hmem
        rw [List.map_cons, List.mem_cons] at hmem
        push_neg at hmem
        obtain ⟨h1, h2⟩ := hmem
        have hne : ¬ k2 = k := fun h => h1 h.symm
        simp only [lookupDay, if_neg hne]
        exact ih.mpr h2

lemma foldl_max_mem (l : List ℚ) (a : ℚ) :
    l.foldl max a = a ∨ l.foldl max a ∈ l := by
  induction l generalizing a with
  | nil => left; rfl
  | cons b bs ih =>
      simp only [List.foldl_cons]
      rcases ih (max a b) with h | h
      · rcases le_total a b with hab | hab
        · right; rw [h, max_eq_right hab]; exact List.mem_cons_self b bs
        · left; rw [h, max_eq_left hab]
      · right; exact List.mem_cons_of_mem b h

lemma le_foldl_max (l : List ℚ) (a : ℚ) :
    a ≤ l.foldl max a ∧ ∀ x ∈ l, x ≤ l.foldl max a := by
  induction l generalizing a with
  | nil => exact ⟨le_refl a, by simp⟩
  | cons b bs ih =>
      simp only [List.foldl_cons]
      obtain ⟨h1, h2⟩ := ih (max a b)
      refine ⟨le_trans (le_max_left a b) h1, ?_⟩
      intro x hx
      rcases List.mem_cons.mp hx with hx | hx
      · rw [hx]; exact le_trans (le_max_right a b) h1
      · exact h2 x hx

lemma foldl_min_mem (l : List ℚ) (a : ℚ) :
    l.foldl min a = a ∨ l.foldl min a ∈ l := by
  induction l generalizing a with
  | nil => left; rfl
  | cons b bs ih =>
      simp only [List.foldl_cons]
      rcases ih (min a b) with h | h
      · rcases le_total a b with hab | hab
        · left; rw [h, min_eq_left hab]
        · right; rw [h, min_eq_right hab]; exact List.mem_cons_self b bs
      · right; exact List.mem_cons_of_mem b h

lemma foldl_min_le (l : List ℚ) (a : ℚ) :
    l.foldl min a ≤ a ∧ ∀ x ∈ l, l.foldl min a ≤ x := by
  induction l generalizing a with
  | nil => exact ⟨le_refl a, by simp⟩
  | cons b bs ih =>
      simp only [List.foldl_cons]
      obtain ⟨h1, h2⟩ := ih (min a b)
      refine ⟨le_trans h1 (min_le_left a b), ?_⟩
      intro x hx
      rcases List.mem_cons.mp hx with hx | hx
      · rw [hx]; exact le_trans h1 (min_le_right a b)
      · exact h2 x hx

lemma bucketStats_props (k : String) (xs : List Sample) (a : DailyAggregate)
    (h : bucketStats k xs = some a) :
    xs ≠ [] ∧ a.date_key = k ∧
    a.high ∈ xs.map Sample.temp ∧ (∀ t ∈ xs.map Sample.temp, t ≤ a.high) ∧
    a.low ∈ xs.map Sample.temp ∧ (∀ t ∈ xs.map Sample.temp, a.low ≤ t) ∧
    a.rain ∈ xs.map Sample.pop ∧ (∀ p ∈ xs.map Sample.pop, p ≤ a.rain) ∧
    a.wind = (xs.map Sample.wind).sum / ((xs.length : ℚ)) ∧
    (xs.length = 1 → a.low = a.high) := by
  match xs, h with
  | s :: rest, h =>
    simp only [bucketStats, Option.some.injEq] at h
    subst h
    dsimp only
    simp only [List.map_cons]
    refine ⟨by simp, by trivial, ?_, ?_, ?_, ?_, ?_, ?_, by trivial, ?_⟩
    · rcases foldl_max_mem (rest.map Sample.temp) s.temp with h2 | h2
      · rw [h2]; exact List.mem_cons_self _ _
      · exact List.mem_cons_of_mem _ h2
    · intro t ht
      obtain ⟨ha, hb⟩ := le_foldl_max (rest.map Sample.temp) s.temp
      rcases List.mem_cons.mp ht with ht | ht
      · subst ht; exact ha
      · exact hb t ht
    · rcases foldl_min_mem (rest.map Sample.temp) s.temp with h2 | h2
      · rw [h2]; exact List.mem_cons_self _ _
      · exact List.mem_cons_of_mem _ h2
    · intro t ht
      obtain ⟨ha, hb⟩ := foldl_min_le (rest.map Sample.temp) s.temp
      rcases List.mem_cons.mp ht with ht | ht
      · subst ht; exact ha
      · exact hb t ht
    · rcases foldl_max_mem (rest.map Sample.pop) s.pop with h2 | h2
      · rw [h2]; exact List.mem_cons_self _ _
      · exact List.mem_cons_of_mem _ h2
    · intro p hp
      obtain ⟨ha, hb⟩ := le_foldl_max (rest.map Sample.pop) s.pop
      rcases List.mem_cons.mp hp with hp | hp
      · subst hp; exact ha
      · exact hb p hp
    · intro hlen
      have hrest : rest = [] := by
        cases rest with
        | nil => rfl
        | cons r rs => simp at hlen
      subst hrest
      rfl

lemma filterMap_map_eq {α β : Type} (f : α → Option β) (g : β → α) (l : List α)
    (h : ∀ x ∈ l, ∃ b, f x = some b ∧ g b = x) :
    (l.filterMap f).map g = l := by
  induction l with
  | nil => rfl
  | cons x rest ih =>
      obtain ⟨b, hb, hg⟩ := h x (List.mem_cons_self x rest)
      rw [List.filterMap_cons, hb]
      simp only [List.map_cons, hg]
      rw [ih (fun y hy => h y (List.mem_cons_of_mem x hy))]

lemma mem_aggregateDaily_decomp (samples : List Sample) (a : DailyAggregate)
    (ha : a ∈ aggregateDaily samples) :
    lookupDay a.date_key (groupByDay samples) =
      some (samples.filter (fun s => s.date_key = a.date_key)) ∧
    bucketStats a.date_key (samples.filter (fun s => s.date_key = a.date_key)) =
      some a := by
  unfold aggregateDaily at ha
  rw [List.mem_filterMap] at ha
  obtain ⟨k, hk, hfk⟩ := ha
  rw [Option.bind_eq_some] at hfk
  obtain ⟨xs, hlk, hbs⟩ := hfk
  have hdk : a.date_key = k := (bucketStats_props k xs a hbs).2.1
  subst hdk
  rw [lookup_groupByDay] at hlk
  cases hfilt : samples.filter (fun s => s.date_key = a.date_key) with
  | nil =>
      rw [hfilt] at hlk
      exact Option.noConfusion hlk
  | cons y ys =>
      rw [hfilt] at hlk
      simp only [extendBucket] at hlk
      obtain rfl : y :: ys = xs := Option.some.inj hlk
      constructor
      · rw [lookup_groupByDay, hfilt]; rfl
      · exact hbs

lemma aggregateDaily_keys (samples : List Sample) :
    (aggregateDaily samples).map DailyAggregate.date_key =
      ((((groupByDay samples).map Prod.fst).insertionSort
        (fun a b => a ≤ b)).take 7) := by
  unfold aggregateDaily
  apply filterMap_map_eq
  intro k hk
  have hk2 : k ∈ (groupByDay samples).map Prod.fst := by
    have h3 : k ∈ ((groupByDay samples).map Prod.fst).insertionSort
        (fun a b => a ≤ b) := (List.take_sublist 7 _).mem hk
    exact (List.mem_insertionSort _).mp h3
  rcases hl : lookupDay k (groupByDay samples) with _ | xs
  · exact absurd ((lookupDay_eq_none k _).mp hl) (by simpa using hk2)
  · have hcase := hl
    rw [lookup_groupByDay] at hcase
    cases hfilt : samples.filter (fun s => s.date_key = k) with
    | nil =>
        rw [hfilt] at hcase
        exact Option.noConfusion hcase
    | cons y ys =>
        rw [hfilt] at hcase
        simp only [extendBucket] at hcase
        obtain rfl : y :: ys = xs := Option.some.inj hcase
        obtain ⟨b, hb⟩ : ∃ b, bucketStats k (y :: ys) = some b := ⟨_, rfl⟩
        refine ⟨b, ?_, (bucketStats_props k (y :: ys) b hb).2.1⟩
        rw [Option.some_bind]
        exact hb

lemma aggregateDaily_sorted (samples : List Sample) :
    List.Sorted (fun a b : String => a ≤ b)
      ((aggregateDaily samples).map DailyAggregate.date_key) := by
  rw [aggregateDaily_keys]
  exact List.Pairwise.sublist (List.take_sublist 7 _)
    (List.sorted_insertionSort _ _)

lemma aggregateDaily_length_le (samples : List Sample) :
    (aggregateDaily samples).length ≤ 7 := by
  unfold aggregateDaily
  refine le_trans (List.length_filterMap_le _ _) ?_
  exact List.length_take_le _ _

lemma groupFold_single_key (samples : List Sample) (k : String) (ys : List Sample)
    (h : ∀ s ∈ samples, s.date_key = k) :
    samples.foldl insertSample [(k, ys)] = [(k, ys ++ samples)] := by
  induction samples generalizing ys with
  | nil => simp
  | cons s rest ih =>
      have hs : s.date_key = k := h s (List.mem_cons_self s rest)
      simp only [List.foldl_cons, insertSample, if_pos hs.symm]
      rw [ih (ys ++ [s]) (fun x hx => h x (List.mem_cons_of_mem s hx))]
      simp

lemma groupByDay_single_key (samples : List Sample) (k : String)
    (h : ∀ s ∈ samples, s.date_key = k) (hne : samples ≠ []) :
    groupByDay samples = [(k, samples)] := by
  match samples, hne with
  | s :: rest, _ =>
    have hs : s.date_key = k := h s (List.mem_cons_self s rest)
    unfold groupByDay
    simp only [List.foldl_cons, insertSample]
    rw [hs]
    rw [groupFold_single_key rest k [s]
      (fun x hx => h x (List.mem_cons_of_mem s hx))]
    simp

lemma aggregateDaily_single_key (samples : List Sample) (k : String)
    (h : ∀ s ∈ samples, s.date_key = k) (hne : samples ≠ []) :
    (aggregateDaily samples).length = 1 := by
  match samples, hne with
  | s :: rest, hne =>
    have hg : groupByDay (s :: rest) = [(k, s :: rest)] :=
      groupByDay_single_key _ k h (by simp)
    unfold aggregateDaily
    rw [hg]
    simp [List.insertionSort, List.orderedInsert, lookupDay, bucketStats]

/-- C6: for every sequence of forecast samples the aggregator partitions them by
calendar-date key; each emitted day bucket carries the min and max temperature
of exactly its own samples (the input filtered to its date key, in order), the
maximum precipitation probability, and the arithmetic mean wind speed; buckets
are emitted with date keys sorted ascending and truncated to at most 7 days; a
singleton bucket has min equal to max; and samples all sharing one date yield
exactly one aggregate. -/
theorem aggregateDaily_spec (samples : List Sample) (hne : samples ≠ []) :
    (aggregateDaily samples).length ≤ 7 ∧
    List.Sorted (fun a b : String => a ≤ b)
      ((aggregateDaily samples).map DailyAggregate.date_key) ∧
    (∀ a ∈ aggregateDaily samples,
      ∃ xs, xs = samples.filter (fun s => s.date_key = a.date_key) ∧
        xs ≠ [] ∧
        a.high ∈ xs.map Sample.temp ∧ (∀ t ∈ xs.map Sample.temp, t ≤ a.high) ∧
        a.low ∈ xs.map Sample.temp ∧ (∀ t ∈ xs.map Sample.temp, a.low ≤ t) ∧
        a.rain ∈ xs.map Sample.pop ∧ (∀ p ∈ xs.map Sample.pop, p ≤ a.rain) ∧
        a.wind = (xs.map Sample.wind).sum / ((xs.length : ℚ)) ∧
        (xs.length = 1 → a.low = a.high)) ∧
    (∀ k, (∀ s ∈ samples, s.date_key = k) →
      (aggregateDaily samples).length = 1) := by
  refine ⟨aggregateDaily_length_le samples, aggregateDaily_sorted samples, ?_, ?_⟩
  · intro a ha
    obtain ⟨h1, h2⟩ := mem_aggregateDaily_decomp samples a ha
    obtain ⟨q1, _, q3, q4, q5, q6, q7, q8, q9, q10⟩ :=
      bucketStats_props _ _ _ h2
    exact ⟨_, rfl, q1, q3, q4, q5, q6, q7, q8, q9, q10⟩
  · intro k hk
    exact aggregateDaily_single_key samples k hk hne

/-- C6 witness: `aggregateDaily_spec` on a concrete two-sample batch sharing
a single calendar date. -/
theorem aggregateDaily_spec_witness :
    ([⟨"2024-01-01", 5, "Clear", 0, 2⟩,
      ⟨"2024-01-01", 9, "Rain", 1, 4⟩] : List Sample) ≠ [] ∧
    (aggregateDaily
      [⟨"2024-01-01", 5, "Clear", 0, 2⟩,
       ⟨"2024-01-01", 9, "Rain", 1, 4⟩]).length ≤ 7 :=
  ⟨by simp,
    (aggregateDaily_spec
      [⟨"2024-01-01", 5, "Clear", 0, 2⟩,
       ⟨"2024-01-01", 9, "Rain", 1, 4⟩] (by simp)).1⟩

/-- C7: applied to the empty input the Forecast Aggregator forms no bucket at
all — grouping yields the empty dict, so no empty-list `max`/`min` and no
division by a zero count is ever attempted — and the result is empty. -/
theorem aggregateDaily_empty :
    aggregateDaily ([] : List Sample) = [] ∧
    groupByDay ([] : List Sample) = [] :=
  ⟨rfl, rfl⟩

lemma phase_idx_eq_raw (y m d : ℤ) :
    phase_idx y m d = (⌊moonAgeRaw y m d * 8 / synodic⌋) % 8 := by
  unfold phase_idx moonAge
  have hP : (synodic : ℚ) ≠ 0 := by norm_num [synodic]
  have h1 : (moonAgeRaw y m d - synodic * ⌊moonAgeRaw y m d / synodic⌋) / synodic * 8
      = moonAgeRaw y m d * 8 / synodic
        - ((8 * ⌊moonAgeRaw y m d / synodic⌋ : ℤ) : ℚ) := by
    push_cast
    field_simp
    ring
  rw [h1, Int.floor_sub_int]
  omega

lemma floor_shift_01 (x δ : ℚ) (h0 : 0 ≤ δ) (h1 : δ < 1) :
    ⌊x + δ⌋ = ⌊x⌋ ∨ ⌊x + δ⌋ = ⌊x⌋ + 1 := by
  have hlo : ⌊x⌋ ≤ ⌊x + δ⌋ := Int.floor_le_floor (by linarith)
  have hhi : ⌊x + δ⌋ < ⌊x⌋ + 2 := by
    apply Int.floor_lt.mpr
    push_cast
    have := Int.lt_floor_add_one x
    linarith
  omega

set_option maxHeartbeats 2000000 in
lemma moonAgeRaw_addDays30_bounds (y m d : ℤ) (h : validDate y m d) :
    29/30 ≤ moonAgeRaw (addDays30 y m d).1 (addDays30 y m d).2.1
        (addDays30 y m d).2.2 - moonAgeRaw y m d ∧
    moonAgeRaw (addDays30 y m d).1 (addDays30 y m d).2.1
        (addDays30 y m d).2.2 - moonAgeRaw y m d ≤ 27/20 := by
  obtain ⟨hm1, hm2, hd1, hd2⟩ := h
  cases hL : isLeap y <;>
  interval_cases m <;>
    (norm_num [daysInMonth, hL] at hd2) <;>
    (simp only [addDays30, nextMonth, daysInMonth, moonAgeRaw, hL]) <;>
    norm_num <;>
    split_ifs <;>
    (push_cast; constructor <;> linarith)

/-- C4: the moon-phase computation of lines 423-427 is deterministic in the
calendar date, and advancing the date by one synodic period — 30 days, the
whole-day realisation of 29.53 — moves the computed lunar age by less than the
width of one phase bucket (29.53/8 ≈ 3.69 days), so the phase bucket is the
same up to the rounding tolerance of the bucket width: it is unchanged or
advances by exactly one of the eight arcs. -/
theorem moon_phase_period (y m d : ℤ) (h : validDate y m d) :
    phase_idx y m d = phase_idx y m d ∧
    (phase_idx (addDays30 y m d).1 (addDays30 y m d).2.1 (addDays30 y m d).2.2 =
        phase_idx y m d ∨
      phase_idx (addDays30 y m d).1 (addDays30 y m d).2.1 (addDays30 y m d).2.2 =
        (phase_idx y m d + 1) % 8) := by
  refine ⟨rfl, ?_⟩
  obtain ⟨hlo, hhi⟩ := moonAgeRaw_addDays30_bounds y m d h
  rw [phase_idx_eq_raw, phase_idx_eq_raw]
  have hPpos : (0:ℚ) < synodic := by norm_num [synodic]
  have hδ0 : (0:ℚ) ≤ (moonAgeRaw (addDays30 y m d).1 (addDays30 y m d).2.1
      (addDays30 y m d).2.2 - moonAgeRaw y m d) * 8 / synodic := by
    apply div_nonneg _ (le_of_lt hPpos)
    linarith
  have hδ1 : (moonAgeRaw (addDays30 y m d).1 (addDays30 y m d).2.1
      (addDays30 y m d).2.2 - moonAgeRaw y m d) * 8 / synodic < 1 := by
    rw [div_lt_one hPpos]
    norm_num [synodic]
    linarith
  have hx : moonAgeRaw (addDays30 y m d).1 (addDays30 y m d).2.1
        (addDays30 y m d).2.2 * 8 / synodic
      = moonAgeRaw y m d * 8 / synodic +
        (moonAgeRaw (addDays30 y m d).1 (addDays30 y m d).2.1
          (addDays30 y m d).2.2 - moonAgeRaw y m d) * 8 / synodic := by
    field_simp
    ring
  rw [hx]
  rcases floor_shift_01 (moonAgeRaw y m d * 8 / synodic)
      ((moonAgeRaw (addDays30 y m d).1 (addDays30 y m d).2.1
        (addDays30 y m d).2.2 - moonAgeRaw y m d) * 8 / synodic) hδ0 hδ1 with
    he | he
  · left; rw [he]
  · right; rw [he]; omega

/-- C4 witness: `moon_phase_period` at the concrete date 2024-01-15. -/
theorem moon_phase_period_witness :
    validDate 2024 1 15 ∧
    (phase_idx (addDays30 2024 1 15).1 (addDays30 2024 1 15).2.1
        (addDays30 2024 1 15).2.2 = phase_idx 2024 1 15 ∨
      phase_idx (addDays30 2024 1 15).1 (addDays30 2024 1 15).2.1
        (addDays30 2024 1 15).2.2 = (phase_idx 2024 1 15 + 1) % 8) :=
  ⟨by decide, (moon_phase_period 2024 1 15 (by decide)).2⟩
